import Mathlib

/-!
Shallow embedding of the `secateur` relationship-mutation scheduler
(`src/secateur/tasks.py`, `src/secateur/models.py`) together with proofs
of the specification claims about it.

Conventions of the embedding:
* account ids (`Account.user_id`, the primary key) are `Nat`;
* timestamps (`datetime` values) are `Nat` seconds; `None` is `Option.none`;
* the Django database is a `Store` record holding the `Relationship`
  rows, the `Account` rows, the `Profile` rows (just their ids), the
  `LogMessage` rows (just their message text) and the django cache
  (an association list from key to the cached timestamp; TTL expiry of
  cache entries is not modelled, a hypothesis of a theorem states
  whether the key is present at the time of the call);
* the remote Twitter API is an oracle argument (`ApiResult`): each task
  invocation is given the response the remote call would return;
* celery's `self.retry(...)` raises a `Retry` exception, and both tasks
  are wrapped in `@transaction.atomic`, so any exception leaving the
  task body (ValueError, AssertionError, Retry, an unhandled
  TwitterError, MultipleObjectsReturned) rolls back every database
  write of the invocation; cache writes are not transactional and
  survive.  `rollbackDB` below implements exactly this.
-/

/-- `models.Relationship.FOLLOWS`. -/
def FOLLOWS : Nat := 1

/-- `models.Relationship.BLOCKS` (= `tasks.RelationshipType.BLOCK`). -/
def BLOCKS : Nat := 2

/-- `models.Relationship.MUTES` (= `tasks.RelationshipType.MUTE`). -/
def MUTES : Nat := 3

/-- A `models.Relationship` row: a typed directed edge between accounts.
(The source's field name `until` is a reserved word in Lean, hence the
guillemets.) -/
structure Relationship where
  type : Nat
  subject : Nat
  object : Nat
  updated : Nat
  «until» : Option Nat
deriving DecidableEq, Repr

/-- A `models.Account` row (only the fields the tasks read). -/
structure Account where
  user_id : Nat
  screen_name : Option String
deriving DecidableEq, Repr

/-- The database plus django cache state visible to the tasks. -/
structure Store where
  rels : List Relationship
  accounts : List Account
  profiles : List Nat
  logs : List String
  cache : List (String × Nat)
deriving DecidableEq, Repr

/-- A `models.User` (the secateur user driving the task). -/
structure SecUser where
  username : String
  account : Nat
  api_enabled : Bool
deriving DecidableEq, Repr

/-- A `twitter.User` object as returned by the remote mutation API. -/
structure TwUser where
  user_id : Nat
  screen_name : Option String
deriving DecidableEq, Repr

/-- The error-code classification of `utils.ErrorCode.from_exception`,
as consumed by the tasks. -/
inductive ErrorCode where
  | rateLimitExceeded
  | notMutingSpecifiedUser
  | pageDoesNotExist
  | userSuspended
  | userNotFound
  | other
deriving DecidableEq, Repr

/-- The response of one remote mutation call (the oracle input). -/
inductive ApiResult where
  | ok (user : TwUser)
  | err (code : ErrorCode)
deriving DecidableEq, Repr

/-- How a task invocation terminates. -/
inductive Outcome where
  /-- the function returned normally -/
  | returned
  /-- `raise ValueError(...)` -/
  | valueError
  /-- a failed `assert` (AssertionError) -/
  | assertionError
  /-- `self.retry(countdown=...)` raised `celery.exceptions.Retry` -/
  | retried
  /-- an unhandled `TwitterError` propagated -/
  | raisedTwitter (code : ErrorCode)
  /-- `QuerySet.get()` raised `MultipleObjectsReturned` -/
  | raisedMultiple
deriving DecidableEq, Repr

/-- Result of one task invocation: the store afterwards, the way the
invocation ended, and how many remote mutation API calls it made. -/
structure TaskResult where
  store : Store
  outcome : Outcome
  apiCalls : Nat
deriving DecidableEq, Repr

/-- `@transaction.atomic` rollback: every database write of the
invocation is undone, while cache writes (django cache, not the
database) survive. -/
def rollbackDB (orig cur : Store) : Store :=
  { cur with
    rels := orig.rels
    accounts := orig.accounts
    profiles := orig.profiles
    logs := orig.logs }

/-- `django.core.cache.cache.get(key)`. -/
def cacheGet (c : List (String × Nat)) (key : String) : Option Nat :=
  (c.find? (fun e => e.1 = key)).map (fun e => e.2)

/-- `django.core.cache.cache.set(key, value, ttl)` (TTL not modelled). -/
def cacheSet (c : List (String × Nat)) (key : String) (value : Nat) :
    List (String × Nat) :=
  (key, value) :: c.filter (fun e => ¬ e.1 = key)

/-- The `screen_name` of the account row with the given primary key, if
any; used for the `object__screen_name` join-filters. -/
def screenNameOf (st : Store) (id : Nat) : Option String :=
  match st.accounts.find? (fun a => a.user_id = id) with
  | some a => a.screen_name
  | none => none

/-- Python's `random.randint(a, b)`: uniform on the *inclusive* range
`[a, b]`, here driven by an arbitrary draw `r`. -/
def randint (a b r : Nat) : Nat := a + r % (b - a + 1)

/-- `tasks._twitter_retry_timeout(base, retries)`, with the two random
draws made explicit as `r1` (the slot draw) and `r2` (the second draw
within the slot's window). -/
def twitter_retry_timeout (base : Nat) (retries : Nat) (r1 r2 : Nat) : Nat :=
  let max_slot := min (2 ^ retries - 1) (23 * 4)
  let slot := randint 0 max_slot r1
  let seconds := randint (slot * 15 * 60) ((slot + 1) * 15 * 60) r2
  base + seconds

/-- Modelled from the spec: `TokenBucket` lives in `secateur/utils.py`,
which is not among the provided sources (only its caller
`models.User.withdraw_tokens` is).  Modelled from spec §3/§4.1: `value`
is only ever read through `value_at(now) = min(max, value + rate * (now
- time))`; the float fields are modelled as rationals. -/
structure TokenBucket where
  rate : ℚ
  max : ℚ
  value : ℚ
  time : ℚ
deriving DecidableEq, Repr

/-- Modelled from the spec: `TokenBucket.value_at(now)` (spec §3). -/
def TokenBucket.value_at (b : TokenBucket) (now : ℚ) : ℚ :=
  min b.max (b.value + b.rate * (now - b.time))

/-- Modelled from the spec: `TokenBucket.withdraw(now, amount)` returns
a new bucket with `time = now`, `value = value_at(now) - amount`, or
fails with `InsufficientQuota` (here `none`) when `amount >
value_at(now)`; no partial withdrawal (spec §3/§4.1). -/
def TokenBucket.withdraw (b : TokenBucket) (now : ℚ) (amount : ℚ) :
    Option TokenBucket :=
  if amount > b.value_at now then none
  else some { b with time := now, value := b.value_at now - amount }

/-- `models.Account.get_accounts(*ids)` for the integer-id case:
`get_or_create` every id that has no account row yet (bulk path:
figures out the missing ids and creates only those). -/
def get_accounts (st : Store) (ids : List Nat) : Store :=
  { st with
    accounts := ids.foldl
      (fun acc i =>
        if acc.any (fun a => a.user_id = i) then acc else acc ++ [⟨i, none⟩])
      st.accounts }

/-- `models.Account.get_account(twitter_user)` for a `twitter.User`
result: `Profile.update` creates-or-updates the Profile row and
creates-or-updates the Account row (refreshing `screen_name` etc.). -/
def get_account (st : Store) (tw : TwUser) : Store :=
  { st with
    profiles :=
      if st.profiles.contains tw.user_id then st.profiles
      else st.profiles ++ [tw.user_id]
    accounts :=
      if st.accounts.any (fun a => a.user_id = tw.user_id) then
        st.accounts.map (fun a =>
          if a.user_id = tw.user_id then { a with screen_name := tw.screen_name }
          else a)
      else st.accounts ++ [⟨tw.user_id, tw.screen_name⟩] }

/-- The `existing` filter of `Relationship.add_relationships`:
`type=type, subject__in=subjects, object__in=objects`. -/
def addRelPred (type : Nat) (subjects objects : List Nat)
    (r : Relationship) : Bool :=
  r.type = type && r.subject ∈ subjects && r.object ∈ objects

/-- The `to_create` list of `Relationship.add_relationships`: for each
object then each subject, a fresh row unless the `(subject, object)`
pair already has a row of this type. -/
def addRelToCreate (st : Store) (type : Nat) (subjects objects : List Nat)
    (updated : Nat) («until» : Option Nat) : List Relationship :=
  let existing_set :=
    ((st.rels.filter (addRelPred type subjects objects)).map
      (fun r => (r.subject, r.object)))
  objects.flatMap (fun o =>
    (subjects.filter (fun s => (s, o) ∉ existing_set)).map
      (fun s => Relationship.mk type s o updated «until»))

/-- `models.Relationship.add_relationships(type, subjects, objects,
updated, until)`: bulk-create the missing rows, then update the
matching rows\' `updated` — and their `until` only when a non-None
`until` was passed (`if until:`).  The `existing` queryset is lazy, so
its `update` also touches the rows just bulk-created; they already
carry exactly those values, so the map over the appended list below is
the exact effect. -/
def add_relationships (st : Store) (type : Nat) (subjects objects : List Nat)
    (updated : Nat) («until» : Option Nat) : Store :=
  let rels1 := st.rels ++ addRelToCreate st type subjects objects updated «until»
  { st with
    rels := match «until» with
      | some u => rels1.map (fun r =>
          if addRelPred type subjects objects r then
            { r with updated := updated, «until» := some u }
          else r)
      | none => rels1.map (fun r =>
          if addRelPred type subjects objects r then { r with updated := updated }
          else r) }

/-- `models.Account.remove_friends_older_than(updated)`:
`Relationship.remove_relationships(type=FOLLOWS, subject=self,
updated__lt=updated)`. -/
def remove_friends_older_than (st : Store) (subject : Nat) (updated : Nat) :
    Store :=
  { st with
    rels := st.rels.filter (fun r =>
      !(r.type = FOLLOWS && r.subject = subject && r.updated < updated)) }

/-- Deleting an `Account` row (`account.delete()`): Django cascades the
delete to every row holding a `CASCADE` foreign key to it, i.e. every
`Relationship` whose `subject` or `object` is this account.  The
`Profile` row is *not* deleted: `Account.profile` is a forward
`OneToOneField(Profile, on_delete=SET_NULL)`, so nothing points at the
Account from Profile and the Profile row survives. -/
def delete_account (st : Store) (id : Nat) : Store :=
  { st with
    accounts := st.accounts.filter (fun a => !(a.user_id = id))
    rels := st.rels.filter (fun r => !(r.subject = id || r.object = id)) }

/-- The target filter shared by `create_relationship` and
`destroy_relationship` (tasks.py): rows of this type whose subject is
the secateur user\'s account, filtered by `object__screen_name` when a
screen name was given, else by `object__user_id`. -/
def selPred (st : Store) (type : Nat) (subjectId : Nat)
    (user_id : Option Nat) (screen_name : Option String)
    (r : Relationship) : Bool :=
  r.type = type && r.subject = subjectId &&
    (match screen_name with
     | some sn => screenNameOf st r.object = some sn
     | none => some r.object = user_id)

/-- `Account.follows(user_id=..., screen_name=...)` is called by
`create_relationship` with both arguments passed through; its body
asserts that not both are set.  When exactly one is set it asks whether
a FOLLOWS edge from `subjectId` to the selected account exists. -/
def followsPred (st : Store) (subjectId : Nat) (user_id : Option Nat)
    (screen_name : Option String) (r : Relationship) : Bool :=
  r.type = FOLLOWS && r.subject = subjectId &&
    (match user_id with
     | some uid => r.object = uid
     | none => screenNameOf st r.object = screen_name)

/-- `Account.__str__`: the screen name when known, else `id=<pk>`. -/
def accountStr (tw : TwUser) : String :=
  match tw.screen_name with
  | some sn => sn
  | none => "id=" ++ toString tw.user_id

/-- The audit `LogMessage` text written on a successful create. -/
def create_log_message (verb : String) (tw : TwUser) («until» : Option Nat) :
    String :=
  verb ++ " " ++ accountStr tw ++
    (match «until» with
     | some u => " until " ++ toString u
     | none => "")

/-- `tasks.create_relationship(secateur_user_pk, type, user_id,
screen_name, until)` as one invocation over the store, given the remote
API's response `api` for the (at most one) remote call it makes.
`apiCalls` counts the remote mutation calls of this invocation. -/
def create_relationship (st : Store) (user : SecUser) (type : Nat)
    (user_id : Option Nat) (screen_name : Option String)
    («until» : Option Nat) (now : Nat) (api : ApiResult) : TaskResult :=
  -- SANITY CHECKS
  if screen_name.isNone && user_id.isNone then ⟨st, .valueError, 0⟩
  -- TwitterApiDisabled: logger.error (not a LogMessage) and plain return
  else if !user.api_enabled then ⟨st, .returned, 0⟩
  -- RelationshipType(type) / the dispatch raise ValueError on other types
  else if !(type = BLOCKS || type = MUTES) then ⟨st, .valueError, 0⟩
  else
    let past_tense_verb := if type = BLOCKS then "blocked" else "muted"
    let rate_limit_key :=
      user.username ++ ":" ++
        (if type = BLOCKS then "create_block" else "create_mute") ++
        ":rate-limit"
    -- CHECK IF THIS RELATIONSHIP ALREADY EXISTS
    -- `existing_rel_qs.update(until=until)` runs first; when it matched at
    -- least one row the task logs and returns without a remote call.  The
    -- log line evaluates `existing_rel_qs.get()`, which raises
    -- MultipleObjectsReturned when several rows matched — rolling the
    -- update back (transaction.atomic).  When it matched no row the
    -- update wrote nothing and the task goes on.
    match st.rels.filter (selPred st type user.account user_id screen_name) with
    | [_] =>
      ⟨{ st with rels := st.rels.map (fun r =>
           if selPred st type user.account user_id screen_name r then
             { r with «until» := «until» }
           else r) },
       .returned, 0⟩
    | _ :: _ :: _ => ⟨st, .raisedMultiple, 0⟩
    | [] =>
      -- `secateur_user.account.follows(user_id=..., screen_name=...)`:
      -- its body asserts not both arguments are set
      if user_id.isSome && screen_name.isSome then ⟨st, .assertionError, 0⟩
      else if st.rels.any (followsPred st user.account user_id screen_name) then
        ⟨st, .returned, 0⟩
      -- CHECK CACHED RATE LIMIT: self.retry raises Retry, nothing written
      else if (cacheGet st.cache rate_limit_key).isSome then
        ⟨st, .retried, 0⟩
      else
        -- CALL THE TWITTER API
        match api with
        | .err c =>
          if c = .rateLimitExceeded then
            -- cache.set survives (not transactional); the LogMessage
            -- "Rate limited: ..." is rolled back when self.retry raises
            -- Retry out of the transaction.atomic body
            ⟨rollbackDB st
               { st with
                 cache := cacheSet st.cache rate_limit_key (now + 15 * 60)
                 logs := st.logs ++ ["Rate limited: resuming in 15 minutes."] },
             .retried, 1⟩
          else ⟨st, .raisedTwitter c, 1⟩
        | .ok tw =>
          -- UPDATE DATABASE
          let st1 := get_account st tw
          let st2 :=
            add_relationships st1 type [user.account] [tw.user_id] now «until»
          ⟨{ st2 with
             logs := st2.logs ++ [create_log_message past_tense_verb tw «until»] },
           .returned, 1⟩

/-- `tasks.destroy_relationship(secateur_user_pk, type, user_id,
screen_name)` as one invocation over the store, given the remote API's
response for the (at most one) remote call it makes. -/
def destroy_relationship (st : Store) (user : SecUser) (type : Nat)
    (user_id : Option Nat) (screen_name : Option String)
    (now : Nat) (api : ApiResult) : TaskResult :=
  if screen_name.isNone && user_id.isNone then ⟨st, .valueError, 0⟩
  else if !user.api_enabled then ⟨st, .returned, 0⟩
  else if !(type = BLOCKS || type = MUTES) then ⟨st, .valueError, 0⟩
  else
    let past_tense_verb := if type = BLOCKS then "unblocked" else "unmuted"
    let rate_limit_key :=
      user.username ++ ":" ++
        (if type = BLOCKS then "destroy_block" else "destroy_mute") ++
        ":rate-limit"
    let existing :=
      st.rels.filter (selPred st type user.account user_id screen_name)
    -- `if not existing_qs:` — nothing to do, plain return, no remote call
    if existing.isEmpty then ⟨st, .returned, 0⟩
    else if (cacheGet st.cache rate_limit_key).isSome then
      ⟨st, .retried, 0⟩
    else
      -- CALL THE TWITTER API
      match api with
      | .err c =>
        if c = .rateLimitExceeded then
          -- cache.set survives; no LogMessage is created on this branch,
          -- and self.retry raises Retry (transaction rolled back)
          ⟨{ st with cache := cacheSet st.cache rate_limit_key (now + 15 * 60) },
           .retried, 1⟩
        else if c = .notMutingSpecifiedUser then
          -- remove the local relationship, treat as success
          ⟨{ st with rels :=
               st.rels.filter (fun r =>
                 !(selPred st type user.account user_id screen_name r)) },
           .returned, 1⟩
        else if c = .pageDoesNotExist then
          -- `existing_qs.get().object.delete()`: cascades; `.get()`
          -- raises MultipleObjectsReturned when several rows match
          -- (rolled back); the empty case cannot be reached here
          match existing with
          | [r] => ⟨delete_account st r.object, .returned, 1⟩
          | _ => ⟨st, .raisedMultiple, 1⟩
        else ⟨st, .raisedTwitter c, 1⟩
      | .ok tw =>
        let st1 := get_account st tw
        let st2 :=
          { st1 with rels :=
              st1.rels.filter (fun r =>
                !(r.type = type && r.subject = user.account &&
                  r.object = tw.user_id)) }
        ⟨{ st2 with
           logs := st2.logs ++ [past_tense_verb ++ " " ++ accountStr tw] },
         .returned, 1⟩

/-- One response of the remote paged listing call: the next cursor
(`0` signals exhaustion) and the batch of account ids. -/
structure Page where
  next_cursor : Nat
  data : List Nat
deriving DecidableEq, Repr

/-- `tasks.twitter_paged_call_iterator`: walk the listing, applying
every accounts handler to each page; recurse (via `.delay`, modelled
sequentially) while a next cursor is present and pages remain in the
budget; run the finish handlers exactly when a response carries no next
cursor.  The returned `Bool` records whether the finish handlers ran.
The response list holds the successful responses of the successive
calls (a rate-limited attempt retries the same cursor with unchanged
state, an unhandled error aborts the walk). -/
def twitter_paged_call_iterator
    (accounts_handlers : List (Store → List Nat → Store))
    (finish_handlers : List (Store → Store)) :
    List Page → Nat → Store → Store × Bool
  | [], _, st => (st, false)
  | page :: rest, max_pages, st =>
    let st1 := get_accounts st page.data
    let st2 := accounts_handlers.foldl (fun s h => h s page.data) st1
    if page.next_cursor ≠ 0 && max_pages ≠ 0 then
      twitter_paged_call_iterator accounts_handlers finish_handlers rest
        (max_pages - 1) st2
    else if page.next_cursor = 0 then
      (finish_handlers.foldl (fun s h => h s) st2, true)
    else (st2, false)

/-- Natural exhaustion of a paged listing: within the page budget, a
response with no next cursor is reached. -/
def reachesEnd : List Page → Nat → Bool
  | [], _ => false
  | page :: rest, max_pages =>
    if page.next_cursor = 0 then true
    else if max_pages ≠ 0 then reachesEnd rest (max_pages - 1)
    else false

/-- `Account.add_friends(new_friends, updated)`. -/
def add_friends (st : Store) (subject : Nat) (new_friends : List Nat)
    (updated : Nat) : Store :=
  add_relationships st FOLLOWS [subject] new_friends updated none

/-- `tasks.twitter_update_friends`: wire up the accounts handler
`partial(account.add_friends, updated=now)` and the finish handler
`partial(account.remove_friends_older_than, now)` and start the paged
walk with the default budget of 100 pages. -/
def twitter_update_friends (subject : Nat) (now : Nat) (pages : List Page)
    (st : Store) : Store × Bool :=
  twitter_paged_call_iterator
    [fun s ids => add_friends s subject ids now]
    [fun s => remove_friends_older_than s subject now]
    pages 100 st

/-! Helper lemmas (shared; none of these is a claim theorem). -/

/-- `randint a b r` never goes below the lower endpoint. -/
theorem randint_lower (a b r : Nat) : a ≤ randint a b r :=
  Nat.le_add_right a _

/-- `randint a b r` never exceeds the upper endpoint (inclusive). -/
theorem randint_upper (a b r : Nat) (h : a ≤ b) : randint a b r ≤ b := by
  unfold randint
  have hm : r % (b - a + 1) ≤ b - a :=
    Nat.le_of_lt_succ (Nat.mod_lt _ (Nat.succ_pos _))
  omega

/-- C4 (as amended): the computed retry delay is at least `base` and at
most (inclusively) `base + (max_slot + 1) * 900` seconds, where
`max_slot = min (2 ^ retries - 1) 92`, for every outcome `r1`, `r2` of
the two random draws. -/
theorem c4_retry_timeout_bounds (base retries r1 r2 : Nat) :
    base ≤ twitter_retry_timeout base retries r1 r2 ∧
      twitter_retry_timeout base retries r1 r2 ≤
        base + (min (2 ^ retries - 1) (23 * 4) + 1) * (15 * 60) := by
  unfold twitter_retry_timeout
  dsimp only
  set m := min (2 ^ retries - 1) (23 * 4) with hm
  set slot := randint 0 m r1 with hslotdef
  have hslot : slot ≤ m := randint_upper 0 m r1 (Nat.zero_le m)
  have hsec : randint (slot * 15 * 60) ((slot + 1) * 15 * 60) r2 ≤
      (slot + 1) * 15 * 60 :=
    randint_upper _ _ r2 (by nlinarith)
  have hmul : (slot + 1) * 15 * 60 ≤ (m + 1) * (15 * 60) := by nlinarith
  exact ⟨Nat.le_add_right base _, by omega⟩

/-- C4 counterexample to the claim as stated: Python's `random.randint`
is inclusive of both endpoints, so with `base = 0`, `retries = 0`
(hence `max_slot = 0`) the draws can give the delay `900` exactly,
which is not *strictly* less than `base + (max_slot + 1) * 900 = 900`. -/
theorem c4_strict_upper_bound_counterexample :
    twitter_retry_timeout 0 0 0 900 = 900 ∧
      ¬ twitter_retry_timeout 0 0 0 900 <
          0 + (min (2 ^ 0 - 1) (23 * 4) + 1) * (15 * 60) := by
  constructor <;> decide

/-- C5: `withdraw(now, amount)` fails iff `amount > value_at(now)` on
the pre-state; on success the new bucket has `time = now` and `value =
value_at(now) - amount`, so reading `value_at(now)` afterwards yields
the prior `value_at(now)` minus `amount` — no partial withdrawal.
(`0 ≤ amount`: a withdrawal amount is a nonnegative token count.) -/
theorem c5_withdraw_spec (b : TokenBucket) (now amount : ℚ)
    (hamount : 0 ≤ amount) :
    (b.withdraw now amount = none ↔ amount > b.value_at now) ∧
      ∀ b', b.withdraw now amount = some b' →
        b'.time = now ∧ b'.value = b.value_at now - amount ∧
          b'.value_at now = b.value_at now - amount := by
  refine ⟨⟨?_, ?_⟩, ?_⟩
  · intro hnone
    by_contra hle
    unfold TokenBucket.withdraw at hnone
    rw [if_neg hle] at hnone
    exact Option.noConfusion hnone
  · intro hgt
    unfold TokenBucket.withdraw
    rw [if_pos hgt]
  · intro b' hb'
    unfold TokenBucket.withdraw at hb'
    by_cases h : amount > b.value_at now
    · rw [if_pos h] at hb'
      exact Option.noConfusion hb'
    · rw [if_neg h] at hb'
      have hb2 := Option.some.inj hb'
      subst hb2
      refine ⟨rfl, rfl, ?_⟩
      have hva : b.value_at now ≤ b.max := min_le_left _ _
      show min b.max (b.value_at now - amount + b.rate * (now - now)) =
        b.value_at now - amount
      rw [sub_self, mul_zero, add_zero]
      exact min_eq_right (by linarith)

/-- C5 witness: a concrete successful withdrawal. -/
theorem c5_withdraw_spec_witness :
    (0 : ℚ) ≤ 3 ∧
      ((TokenBucket.withdraw ⟨1, 10, 5, 0⟩ 2 3 = none ↔
          (3 : ℚ) > TokenBucket.value_at ⟨1, 10, 5, 0⟩ 2) ∧
        ∀ b', TokenBucket.withdraw ⟨1, 10, 5, 0⟩ 2 3 = some b' →
          b'.time = 2 ∧ b'.value = TokenBucket.value_at ⟨1, 10, 5, 0⟩ 2 - 3 ∧
            b'.value_at 2 = TokenBucket.value_at ⟨1, 10, 5, 0⟩ 2 - 3) :=
  ⟨by norm_num, c5_withdraw_spec ⟨1, 10, 5, 0⟩ 2 3 (by norm_num)⟩

/-- C10: `Relationship.add_relationships` with `until=None` leaves every
pre-existing row's `until` unchanged (only `updated` is refreshed on the
matching rows, because of the `if until:` guard), while a non-None
`until` overwrites `until` on every row matching the
`(type, subjects, objects)` filter. -/
theorem c10_add_relationships_until_frame (st : Store) (type : Nat)
    (subjects objects : List Nat) (updated i : Nat)
    (h : i < st.rels.length) :
    ((add_relationships st type subjects objects updated none).rels[i]?.map
        (fun r => r.«until») = st.rels[i]?.map (fun r => r.«until»)) ∧
      ∀ u, addRelPred type subjects objects (st.rels.get ⟨i, h⟩) = true →
        (add_relationships st type subjects objects updated
            (some u)).rels[i]?.map (fun r => r.«until») = some (some u) := by
  have hget : st.rels[i]? = some (st.rels.get ⟨i, h⟩) :=
    List.getElem?_eq_getElem h
  constructor
  · simp only [add_relationships]
    rw [List.getElem?_map, List.getElem?_append_left h, hget]
    simp only [List.get_eq_getElem]
    by_cases hp : addRelPred type subjects objects st.rels[i] = true <;>
      simp [hp]
  · intro u hp
    simp only [List.get_eq_getElem] at hp
    simp only [add_relationships]
    rw [List.getElem?_map, List.getElem?_append_left h, hget]
    simp only [List.get_eq_getElem]
    simp [hp]

/-- A small concrete store used by witnesses: one scheduled block
`(BLOCKS, 1, 7)` with `until = 9`, and an account row for `7`. -/
def wStore : Store := ⟨[⟨2, 1, 7, 5, some 9⟩], [⟨7, some "bob"⟩], [], [], []⟩

/-- C10 witness: the concrete store, row 0. -/
theorem c10_witness :
    0 < wStore.rels.length ∧
      (((add_relationships wStore 2 [1] [7] 6 none).rels[0]?.map
          (fun r => r.«until») = wStore.rels[0]?.map (fun r => r.«until»)) ∧
        ∀ u, addRelPred 2 [1] [7] (wStore.rels.get ⟨0, by decide⟩) = true →
          (add_relationships wStore 2 [1] [7] 6
              (some u)).rels[0]?.map (fun r => r.«until») = some (some u)) :=
  ⟨by decide,
    c10_add_relationships_until_frame wStore 2 [1] [7] 6 0 (by decide)⟩

/-- C9: when a Relationship of the requested type already exists between
subject and target (the selector matches exactly one row), `create`
returns without any remote API call and overwrites that row's `until`
with the new value — also when the new value is earlier than the stored
one or `None` (which clears the scheduled expiry): last-writer-wins. -/
theorem c9_create_reaffirm_until (st : Store) (user : SecUser) (type : Nat)
    (user_id : Option Nat) (screen_name : Option String)
    («until» : Option Nat) (now : Nat) (api : ApiResult) (r : Relationship)
    (hen : user.api_enabled = true)
    (htype : type = BLOCKS ∨ type = MUTES)
    (hone : st.rels.filter (selPred st type user.account user_id screen_name)
        = [r]) :
    create_relationship st user type user_id screen_name «until» now api =
      ⟨{ st with rels := st.rels.map (fun x =>
           if selPred st type user.account user_id screen_name x then
             { x with «until» := «until» }
           else x) },
       .returned, 0⟩ ∧
      ∀ x ∈ (create_relationship st user type user_id screen_name «until» now
          api).store.rels,
        selPred st type user.account user_id screen_name x = true →
          x.«until» = «until» := by
  have hpredr : selPred st type user.account user_id screen_name r = true := by
    have hr : r ∈ st.rels.filter
        (selPred st type user.account user_id screen_name) := by
      rw [hone]; exact List.mem_singleton_self r
    exact (List.mem_filter.mp hr).2
  have hval : (screen_name.isNone && user_id.isNone) = false := by
    cases hsn : screen_name with
    | some _ => simp
    | none =>
      cases huid : user_id with
      | some _ => simp
      | none =>
        rw [hsn, huid] at hpredr
        simp [selPred] at hpredr
  have htypeb : (!(type = BLOCKS || type = MUTES) : Bool) = false := by
    rcases htype with h | h <;> subst h <;> decide
  have heq : create_relationship st user type user_id screen_name «until» now
      api =
      ⟨{ st with rels := st.rels.map (fun x =>
           if selPred st type user.account user_id screen_name x then
             { x with «until» := «until» }
           else x) },
       .returned, 0⟩ := by
    simp only [create_relationship, hval, hen, htypeb, Bool.not_true,
      Bool.false_eq_true, if_false, hone]
  refine ⟨heq, ?_⟩
  intro x hx hpx
  rw [heq] at hx
  simp only at hx
  obtain ⟨y, hy, rfl⟩ := List.mem_map.mp hx
  by_cases hpy : selPred st type user.account user_id screen_name y = true
  · simp [hpy]
  · rw [if_neg hpy] at hpx ⊢
    exact absurd hpx hpy

/-- A concrete secateur user for witnesses. -/
def wUser : SecUser := ⟨"alice", 1, true⟩

/-- C9 witness: re-affirming the concrete scheduled block with
`until = None` clears its expiry, with no remote call. -/
theorem c9_witness :
    wUser.api_enabled = true ∧ ((2 : Nat) = BLOCKS ∨ (2 : Nat) = MUTES) ∧
      wStore.rels.filter (selPred wStore 2 wUser.account (some 7) none) =
        [⟨2, 1, 7, 5, some 9⟩] ∧
      (create_relationship wStore wUser 2 (some 7) none none 6
          (.err .other) =
        ⟨{ wStore with rels := wStore.rels.map (fun x =>
             if selPred wStore 2 wUser.account (some 7) none x then
               { x with «until» := none }
             else x) },
         .returned, 0⟩ ∧
        ∀ x ∈ (create_relationship wStore wUser 2 (some 7) none none 6
            (.err .other)).store.rels,
          selPred wStore 2 wUser.account (some 7) none x = true →
            x.«until» = none) :=
  ⟨rfl, Or.inl rfl, by decide,
    c9_create_reaffirm_until wStore wUser 2 (some 7) none none 6
      (.err .other) ⟨2, 1, 7, 5, some 9⟩ rfl (Or.inl rfl) (by decide)⟩

/-- Helper: once the sanity check passes and the type is known,
`create_relationship` never raises ValueError. -/
theorem create_ne_valueError (st : Store) (user : SecUser) (type : Nat)
    (user_id : Option Nat) (screen_name : Option String)
    («until» : Option Nat) (now : Nat) (api : ApiResult)
    (hval : (screen_name.isNone && user_id.isNone) = false)
    (htypeb : (!(type = BLOCKS || type = MUTES) : Bool) = false) :
    (create_relationship st user type user_id screen_name «until» now
        api).outcome ≠ Outcome.valueError := by
  unfold create_relationship
  rw [if_neg (by simp [hval])]
  split
  · simp
  · rw [if_neg (by simp [htypeb])]
    dsimp only
    repeat' split
    all_goals simp

/-- Helper: once the sanity check passes and the type is known,
`destroy_relationship` never raises ValueError. -/
theorem destroy_ne_valueError (st : Store) (user : SecUser) (type : Nat)
    (user_id : Option Nat) (screen_name : Option String)
    (now : Nat) (api : ApiResult)
    (hval : (screen_name.isNone && user_id.isNone) = false)
    (htypeb : (!(type = BLOCKS || type = MUTES) : Bool) = false) :
    (destroy_relationship st user type user_id screen_name now
        api).outcome ≠ Outcome.valueError := by
  unfold destroy_relationship
  rw [if_neg (by simp [hval])]
  split
  · simp
  · rw [if_neg (by simp [htypeb])]
    dsimp only
    repeat' split
    all_goals simp

/-- C6 (as amended): both `create` and `destroy` raise
ValueError (`InvalidArgument`) exactly when *neither* target selector
is supplied; a call supplying both selectors passes the validation. -/
theorem c6_validation (st : Store) (user : SecUser) (type : Nat)
    (user_id : Option Nat) (screen_name : Option String)
    («until» : Option Nat) (now : Nat) (api : ApiResult)
    (htype : type = BLOCKS ∨ type = MUTES) :
    (((create_relationship st user type user_id screen_name «until» now
        api).outcome = Outcome.valueError) ↔
      (user_id = none ∧ screen_name = none)) ∧
      (((destroy_relationship st user type user_id screen_name now
          api).outcome = Outcome.valueError) ↔
        (user_id = none ∧ screen_name = none)) := by
  have htypeb : (!(type = BLOCKS || type = MUTES) : Bool) = false := by
    rcases htype with h | h <;> subst h <;> decide
  constructor
  · constructor
    · intro h
      by_contra hn
      have hval : (screen_name.isNone && user_id.isNone) = false := by
        cases user_id <;> cases screen_name <;> simp_all
      exact create_ne_valueError st user type user_id screen_name «until» now
        api hval htypeb h
    · rintro ⟨h1, h2⟩
      subst h1; subst h2
      simp [create_relationship]
  · constructor
    · intro h
      by_contra hn
      have hval : (screen_name.isNone && user_id.isNone) = false := by
        cases user_id <;> cases screen_name <;> simp_all
      exact destroy_ne_valueError st user type user_id screen_name now
        api hval htypeb h
    · rintro ⟨h1, h2⟩
      subst h1; subst h2
      simp [destroy_relationship]

/-- C6 witness: a call supplying exactly one selector does not raise
ValueError, and a call supplying neither does, for create and destroy. -/
theorem c6_validation_witness :
    ((2 : Nat) = BLOCKS ∨ (2 : Nat) = MUTES) ∧
      (((create_relationship wStore wUser 2 (some 7) none none 6
          (.err .other)).outcome = Outcome.valueError) ↔
        ((some 7 : Option Nat) = none ∧ (none : Option String) = none)) ∧
      (((destroy_relationship wStore wUser 2 (some 7) none 6
          (.err .other)).outcome = Outcome.valueError) ↔
        ((some 7 : Option Nat) = none ∧ (none : Option String) = none)) :=
  ⟨Or.inl rfl,
    c6_validation wStore wUser 2 (some 7) none none 6 (.err .other)
      (Or.inl rfl)⟩

/-- C6 counterexample to the claim as stated: a call supplying *both*
`user_id` and `screen_name` does not fail with ValueError — create
returns normally (the screen-name filter matches the existing edge) and
destroy propagates the unrelated remote error, not a ValueError. -/
theorem c6_counterexample :
    (create_relationship wStore wUser 2 (some 7) (some "bob") none 10
        (.err .other)).outcome = Outcome.returned ∧
      (create_relationship wStore wUser 2 (some 7) (some "bob") none 10
          (.err .other)).outcome ≠ Outcome.valueError ∧
      (destroy_relationship wStore wUser 2 (some 7) (some "bob") 10
          (.err .other)).outcome ≠ Outcome.valueError := by
  refine ⟨by decide, by decide, by decide⟩

/-- The C7 failing input: user 1 blocks account 99; account 99 has a
Profile row; an unrelated FOLLOWS edge 3→99 also exists. -/
def c7Store : Store :=
  ⟨[⟨2, 1, 99, 5, none⟩, ⟨1, 3, 99, 5, none⟩],
   [⟨99, some "gone"⟩, ⟨1, some "alice"⟩], [99], [], []⟩

/-- C7: `destroy(S, BLOCK, target=99)` with the remote API reporting
PAGE_GONE deletes Account 99 with cascade to every Relationship edge
referencing it, returns success with no exception — but the Profile row
of account 99 is *retained*: `Account.profile` is a forward
`OneToOneField(Profile, on_delete=SET_NULL)`, so deleting the Account
does not cascade to the Profile, contrary to the claim (and to the
code's own comment "This deletion cascades to the relationship and the
profile"). -/
theorem c7_page_gone_cascade :
    (destroy_relationship c7Store wUser 2 (some 99) none 10
        (.err .pageDoesNotExist)).outcome = Outcome.returned ∧
      (destroy_relationship c7Store wUser 2 (some 99) none 10
          (.err .pageDoesNotExist)).apiCalls = 1 ∧
      (destroy_relationship c7Store wUser 2 (some 99) none 10
          (.err .pageDoesNotExist)).store.rels = [] ∧
      (destroy_relationship c7Store wUser 2 (some 99) none 10
          (.err .pageDoesNotExist)).store.accounts = [⟨1, some "alice"⟩] ∧
      (destroy_relationship c7Store wUser 2 (some 99) none 10
          (.err .pageDoesNotExist)).store.profiles = [99] := by
  refine ⟨by decide, by decide, by decide, by decide, by decide⟩

/-- C8 (as amended): a create or destroy that completes the remote call
writes exactly one audit `LogMessage`; transient retries write none
(the "Rate limited" message created in create's rate-limit branch is
rolled back together with the transaction when `self.retry` raises
`Retry`, and destroy's rate-limit branch never creates one); fatal
failures (an unhandled remote error) write none. -/
theorem c8_audit_log (st : Store) (user : SecUser) (T1 T2 : Nat)
    (sn1 sn2 : Option String) («until» : Option Nat) (now : Nat)
    (hen : user.api_enabled = true)
    (hc_new : st.rels.filter (selPred st BLOCKS user.account (some T1) none)
        = [])
    (hc_nofollow : st.rels.any (followsPred st user.account (some T1) none)
        = false)
    (hc_cache : cacheGet st.cache
        (user.username ++ ":" ++ "create_block" ++ ":rate-limit") = none)
    (hd_exist : st.rels.filter (selPred st BLOCKS user.account (some T2) none)
        ≠ [])
    (hd_cache : cacheGet st.cache
        (user.username ++ ":" ++ "destroy_block" ++ ":rate-limit") = none) :
    ((create_relationship st user BLOCKS (some T1) none «until» now
        (.ok ⟨T1, sn1⟩)).store.logs =
      st.logs ++ [create_log_message "blocked" ⟨T1, sn1⟩ «until»] ∧
      (create_relationship st user BLOCKS (some T1) none «until» now
          (.ok ⟨T1, sn1⟩)).outcome = Outcome.returned) ∧
      ((create_relationship st user BLOCKS (some T1) none «until» now
          (.err .rateLimitExceeded)).store.logs = st.logs ∧
        (create_relationship st user BLOCKS (some T1) none «until» now
            (.err .rateLimitExceeded)).outcome = Outcome.retried) ∧
      ((create_relationship st user BLOCKS (some T1) none «until» now
          (.err .other)).store.logs = st.logs ∧
        (create_relationship st user BLOCKS (some T1) none «until» now
            (.err .other)).outcome = Outcome.raisedTwitter .other) ∧
      ((destroy_relationship st user BLOCKS (some T2) none now
          (.ok ⟨T2, sn2⟩)).store.logs =
        st.logs ++ ["unblocked " ++ accountStr ⟨T2, sn2⟩] ∧
        (destroy_relationship st user BLOCKS (some T2) none now
            (.ok ⟨T2, sn2⟩)).outcome = Outcome.returned) ∧
      ((destroy_relationship st user BLOCKS (some T2) none now
          (.err .rateLimitExceeded)).store.logs = st.logs ∧
        (destroy_relationship st user BLOCKS (some T2) none now
            (.err .rateLimitExceeded)).outcome = Outcome.retried) ∧
      ((destroy_relationship st user BLOCKS (some T2) none now
          (.err .other)).store.logs = st.logs ∧
        (destroy_relationship st user BLOCKS (some T2) none now
            (.err .other)).outcome = Outcome.raisedTwitter .other) := by
  have hdemp : (st.rels.filter
      (selPred st BLOCKS user.account (some T2) none)).isEmpty = false := by
    simpa [List.isEmpty_iff] using hd_exist
  simp only [BLOCKS] at hc_new hc_nofollow hdemp
  refine ⟨⟨?_, ?_⟩, ⟨?_, ?_⟩, ⟨?_, ?_⟩, ⟨?_, ?_⟩, ⟨?_, ?_⟩, ⟨?_, ?_⟩⟩ <;>
    simp [create_relationship, destroy_relationship, hen, hc_new, hc_nofollow,
      hc_cache, hdemp, hd_cache, BLOCKS, MUTES, add_relationships,
      get_account, rollbackDB]

/-- C8 counterexample to the claim as stated: a fatal task failure (an
unhandled remote error on destroy) writes no audit log entry. -/
theorem c8_counterexample :
    (destroy_relationship wStore wUser 2 (some 7) none 10
        (.err .other)).outcome = Outcome.raisedTwitter ErrorCode.other ∧
      (destroy_relationship wStore wUser 2 (some 7) none 10
          (.err .other)).store.logs = wStore.logs := by
  refine ⟨by decide, by decide⟩

/-- C8 witness: the concrete store, creating a block on 8 and
destroying the existing block on 7. -/
theorem c8_audit_log_witness :
    wUser.api_enabled = true ∧
      wStore.rels.filter (selPred wStore BLOCKS wUser.account (some 8) none)
        = [] ∧
      wStore.rels.any (followsPred wStore wUser.account (some 8) none)
        = false ∧
      cacheGet wStore.cache
        (wUser.username ++ ":" ++ "create_block" ++ ":rate-limit") = none ∧
      wStore.rels.filter (selPred wStore BLOCKS wUser.account (some 7) none)
        ≠ [] ∧
      cacheGet wStore.cache
        (wUser.username ++ ":" ++ "destroy_block" ++ ":rate-limit") = none ∧
      (((create_relationship wStore wUser BLOCKS (some 8) none none 10
          (.ok ⟨8, none⟩)).store.logs =
        wStore.logs ++ [create_log_message "blocked" ⟨8, none⟩ none] ∧
        (create_relationship wStore wUser BLOCKS (some 8) none none 10
            (.ok ⟨8, none⟩)).outcome = Outcome.returned) ∧
        ((create_relationship wStore wUser BLOCKS (some 8) none none 10
            (.err .rateLimitExceeded)).store.logs = wStore.logs ∧
          (create_relationship wStore wUser BLOCKS (some 8) none none 10
              (.err .rateLimitExceeded)).outcome = Outcome.retried) ∧
        ((create_relationship wStore wUser BLOCKS (some 8) none none 10
            (.err .other)).store.logs = wStore.logs ∧
          (create_relationship wStore wUser BLOCKS (some 8) none none 10
              (.err .other)).outcome = Outcome.raisedTwitter .other) ∧
        ((destroy_relationship wStore wUser BLOCKS (some 7) none 10
            (.ok ⟨7, none⟩)).store.logs =
          wStore.logs ++ ["unblocked " ++ accountStr ⟨7, none⟩] ∧
          (destroy_relationship wStore wUser BLOCKS (some 7) none 10
              (.ok ⟨7, none⟩)).outcome = Outcome.returned) ∧
        ((destroy_relationship wStore wUser BLOCKS (some 7) none 10
            (.err .rateLimitExceeded)).store.logs = wStore.logs ∧
          (destroy_relationship wStore wUser BLOCKS (some 7) none 10
              (.err .rateLimitExceeded)).outcome = Outcome.retried) ∧
        ((destroy_relationship wStore wUser BLOCKS (some 7) none 10
            (.err .other)).store.logs = wStore.logs ∧
          (destroy_relationship wStore wUser BLOCKS (some 7) none 10
              (.err .other)).outcome = Outcome.raisedTwitter .other)) :=
  ⟨rfl, by decide, by decide, by decide, by decide, by decide,
    c8_audit_log wStore wUser 8 7 none none none 10 rfl (by decide)
      (by decide) (by decide) (by decide) (by decide)⟩

/-- Helper: a conditional rewrite map is the identity when no element
satisfies the condition. -/
theorem map_ite_id {α : Type} (p : α → Bool) (f : α → α) (l : List α)
    (h : ∀ a ∈ l, p a = false) :
    l.map (fun x => if p x then f x else x) = l := by
  induction l with
  | nil => rfl
  | cons a t ih =>
    have ha := h a (List.mem_cons_self a t)
    have ht := ih (fun b hb => h b (List.mem_cons_of_mem a hb))
    simp [ha, ht]

/-- Helper: `create_relationship` on an already-existing edge (selector
matching exactly one row): update `until` on the matching row, return,
no remote call. -/
theorem create_existing (st : Store) (user : SecUser) (type : Nat)
    (user_id : Option Nat) (screen_name : Option String)
    («until» : Option Nat) (now : Nat) (api : ApiResult) (r : Relationship)
    (hen : user.api_enabled = true)
    (htypeb : (!(type = BLOCKS || type = MUTES) : Bool) = false)
    (hone : st.rels.filter (selPred st type user.account user_id screen_name)
        = [r]) :
    create_relationship st user type user_id screen_name «until» now api =
      ⟨{ st with rels := st.rels.map (fun x =>
           if selPred st type user.account user_id screen_name x then
             { x with «until» := «until» }
           else x) },
       .returned, 0⟩ := by
  have hpredr : selPred st type user.account user_id screen_name r = true := by
    have hr : r ∈ st.rels.filter
        (selPred st type user.account user_id screen_name) := by
      rw [hone]; exact List.mem_singleton_self r
    exact (List.mem_filter.mp hr).2
  have hval : (screen_name.isNone && user_id.isNone) = false := by
    cases hsn : screen_name with
    | some _ => simp
    | none =>
      cases huid : user_id with
      | some _ => simp
      | none =>
        rw [hsn, huid] at hpredr
        simp [selPred] at hpredr
  simp only [create_relationship, hval, hen, htypeb, Bool.not_true,
    Bool.false_eq_true, if_false, hone]

/-- Helper: `create_relationship` targeted by user id on a fresh edge
(no existing row, no FOLLOWS edge, no cached rate limit) with a
successful remote call: upsert the account, append exactly one new
Relationship row, write one audit entry. -/
theorem create_uid_fresh_success (st : Store) (user : SecUser) (type T : Nat)
    («until» : Option Nat) (now : Nat) (tw : TwUser)
    (hen : user.api_enabled = true)
    (htypeb : (!(type = BLOCKS || type = MUTES) : Bool) = false)
    (hfil : st.rels.filter (selPred st type user.account (some T) none) = [])
    (hnf : st.rels.any (followsPred st user.account (some T) none) = false)
    (hcache : cacheGet st.cache
        (user.username ++ ":" ++
          (if type = BLOCKS then "create_block" else "create_mute") ++
          ":rate-limit") = none)
    (hfil2 : st.rels.filter (addRelPred type [user.account] [tw.user_id])
        = []) :
    create_relationship st user type (some T) none «until» now (.ok tw) =
      ⟨⟨st.rels ++ [⟨type, user.account, tw.user_id, now, «until»⟩],
        (get_account st tw).accounts, (get_account st tw).profiles,
        st.logs ++ [create_log_message
          (if type = BLOCKS then "blocked" else "muted") tw «until»],
        st.cache⟩,
       .returned, 1⟩ := by
  have hpointwise : ∀ a ∈ st.rels,
      addRelPred type [user.account] [tw.user_id] a = false := fun a ha => by
    have := List.filter_eq_nil_iff.mp hfil2 a ha
    simpa using this
  simp only [create_relationship, Option.isNone_none, Option.isNone_some,
    Bool.true_and, Bool.and_false, Bool.false_eq_true, if_false, hen,
    Bool.not_true, htypeb, hfil, Option.isSome_some, Option.isSome_none,
    hnf, hcache]
  simp only [add_relationships, addRelToCreate, get_account]
  simp only [hfil2]
  cases hu : «until» with
  | none =>
    have hnew : addRelPred type [user.account] [tw.user_id]
        ⟨type, user.account, tw.user_id, now, none⟩ = true := by
      simp [addRelPred]
    have hmapN : st.rels.map (fun r =>
        if addRelPred type [user.account] [tw.user_id] r then
          { r with updated := now }
        else r) = st.rels :=
      map_ite_id _ _ _ hpointwise
    simp [hmapN, hnew]
  | some uu =>
    have hnew : addRelPred type [user.account] [tw.user_id]
        ⟨type, user.account, tw.user_id, now, some uu⟩ = true := by
      simp [addRelPred]
    have hmapS : st.rels.map (fun r =>
        if addRelPred type [user.account] [tw.user_id] r then
          { r with updated := now, «until» := some uu }
        else r) = st.rels :=
      map_ite_id _ _ _ hpointwise
    simp [hmapS, hnew]

/-- Helper: filtering commutes with a map that leaves the predicate's
verdict unchanged on every element. -/
theorem filter_map_of_pred_inv {α : Type} (P : α → Bool) (g : α → α)
    (l : List α) (h : ∀ x, P (g x) = P x) :
    (l.map g).filter P = (l.filter P).map g := by
  rw [List.map_filter]
  congr 1
  exact List.filter_congr (fun a _ => h a)

/-- Helper: a uid-form selector reads neither the store nor `updated`
nor `until`, so rewriting `until` on rows picked by another uid-form
selector does not change its verdict. -/
theorem selPred_after_set_until (st st' : Store) (t t' s s' T T' : Nat)
    (u : Option Nat) (x : Relationship) :
    selPred st t s (some T) none
        (if selPred st' t' s' (some T') none x then { x with «until» := u }
         else x)
      = selPred st t s (some T) none x := by
  by_cases hx : selPred st' t' s' (some T') none x = true <;> simp [hx] <;> rfl

/-- Helper: every row of a set-until rewrite that satisfies the (same,
up to definitional equality) predicate carries the new `until`. -/
theorem until_eq_of_mem_set_until (Q P : Relationship → Bool)
    (u : Option Nat) (l : List Relationship) (hQP : ∀ x, Q x = P x) :
    ∀ x ∈ l.map (fun y => if P y then { y with «until» := u } else y),
      Q x = true → x.«until» = u := by
  intro x hx hqx
  obtain ⟨y, hy, rfl⟩ := List.mem_map.mp hx
  by_cases hpy : P y = true
  · rw [if_pos hpy]
  · rw [if_neg hpy] at hqx
    rw [hQP y] at hqx
    exact absurd hqx hpy

/-- C1: calling `create(S, BLOCK, T, until=T1)` twice in sequence (the
first call's remote API call, if reached, succeeds and returns account
T; S does not follow T; no cached rate limit; the per-triple uniqueness
invariant holds before) leaves exactly one Relationship row for the
triple `(S, BLOCKS, T)` whose `until` is `T1`, makes at most one remote
API call in total, and the second invocation returns before reaching
the remote call (zero remote calls, normal return). -/
theorem c1_create_idempotent (st : Store) (user : SecUser) (T : Nat)
    (sn : Option String) (u : Option Nat) (now1 now2 : Nat) (api2 : ApiResult)
    (hen : user.api_enabled = true)
    (hinv : (st.rels.filter
        (selPred st BLOCKS user.account (some T) none)).length ≤ 1)
    (hnf : st.rels.any (followsPred st user.account (some T) none) = false)
    (hcache : cacheGet st.cache
        (user.username ++ ":" ++ "create_block" ++ ":rate-limit") = none) :
    ((create_relationship
        (create_relationship st user BLOCKS (some T) none u now1
          (.ok ⟨T, sn⟩)).store
        user BLOCKS (some T) none u now2 api2).store.rels.filter
      (selPred st BLOCKS user.account (some T) none)).length = 1 ∧
      (∀ x ∈ (create_relationship
          (create_relationship st user BLOCKS (some T) none u now1
            (.ok ⟨T, sn⟩)).store
          user BLOCKS (some T) none u now2 api2).store.rels,
        selPred st BLOCKS user.account (some T) none x = true →
          x.«until» = u) ∧
      (create_relationship st user BLOCKS (some T) none u now1
          (.ok ⟨T, sn⟩)).apiCalls +
        (create_relationship
          (create_relationship st user BLOCKS (some T) none u now1
            (.ok ⟨T, sn⟩)).store
          user BLOCKS (some T) none u now2 api2).apiCalls ≤ 1 ∧
      (create_relationship
          (create_relationship st user BLOCKS (some T) none u now1
            (.ok ⟨T, sn⟩)).store
          user BLOCKS (some T) none u now2 api2).apiCalls = 0 ∧
      (create_relationship
          (create_relationship st user BLOCKS (some T) none u now1
            (.ok ⟨T, sn⟩)).store
          user BLOCKS (some T) none u now2 api2).outcome =
        Outcome.returned := by
  have htypeb : (!(BLOCKS = BLOCKS || BLOCKS = MUTES) : Bool) = false := by
    decide
  cases hfilcase : st.rels.filter
      (selPred st BLOCKS user.account (some T) none) with
  | nil =>
    have hQ : ∀ r, selPred st BLOCKS user.account (some T) none r
        = addRelPred BLOCKS [user.account] [T] r := by
      intro r; simp [selPred, addRelPred]
    have hfil2 : st.rels.filter (addRelPred BLOCKS [user.account] [T])
        = [] := by
      rw [← List.filter_congr (fun a _ => hQ a)]
      exact hfilcase
    have h1 := create_uid_fresh_success st user BLOCKS T u now1 ⟨T, sn⟩ hen
      htypeb hfilcase hnf hcache hfil2
    rw [h1]
    dsimp only
    have hnew_pred : selPred st BLOCKS user.account (some T) none
        ⟨BLOCKS, user.account, T, now1, u⟩ = true := by
      simp [selPred]
    have hone : (st.rels ++
          [Relationship.mk BLOCKS user.account T now1 u]).filter
        (selPred st BLOCKS user.account (some T) none)
        = [Relationship.mk BLOCKS user.account T now1 u] := by
      rw [List.filter_append, hfilcase]
      simp [hnew_pred]
    have h2 := create_existing
      ⟨st.rels ++ [⟨BLOCKS, user.account, T, now1, u⟩],
        (get_account st ⟨T, sn⟩).accounts, (get_account st ⟨T, sn⟩).profiles,
        st.logs ++ [create_log_message
          (if BLOCKS = BLOCKS then "blocked" else "muted") ⟨T, sn⟩ u],
        st.cache⟩
      user BLOCKS (some T) none u now2 api2
      ⟨BLOCKS, user.account, T, now1, u⟩ hen htypeb hone
    rw [h2]
    dsimp only
    refine ⟨?_, ?_, by decide, rfl, rfl⟩
    · rw [filter_map_of_pred_inv _ _ _
        (fun x => selPred_after_set_until st _ BLOCKS BLOCKS user.account
          user.account T T u x), hone]
      simp
    · exact until_eq_of_mem_set_until _ _ u _ (fun x => rfl)
  | cons r0 tl =>
    have htl : tl = [] := by
      rw [hfilcase] at hinv
      simpa using hinv
    subst htl
    have h1 := create_existing st user BLOCKS (some T) none u now1
      (.ok ⟨T, sn⟩) r0 hen htypeb hfilcase
    rw [h1]
    dsimp only
    have hr0 : selPred st BLOCKS user.account (some T) none r0 = true := by
      have hr : r0 ∈ st.rels.filter
          (selPred st BLOCKS user.account (some T) none) := by
        rw [hfilcase]; exact List.mem_singleton_self r0
      exact (List.mem_filter.mp hr).2
    have hone2 : (st.rels.map (fun x =>
        if selPred st BLOCKS user.account (some T) none x then
          { x with «until» := u }
        else x)).filter (selPred st BLOCKS user.account (some T) none)
        = [{ r0 with «until» := u }] := by
      rw [filter_map_of_pred_inv _ _ _
        (fun x => selPred_after_set_until st st BLOCKS BLOCKS user.account
          user.account T T u x), hfilcase]
      simp [hr0]
    have h2 := create_existing
      ⟨st.rels.map (fun x =>
          if selPred st BLOCKS user.account (some T) none x then
            { x with «until» := u }
          else x),
        st.accounts, st.profiles, st.logs, st.cache⟩
      user BLOCKS (some T) none u now2 api2 { r0 with «until» := u } hen
      htypeb hone2
    rw [h2]
    dsimp only
    refine ⟨?_, ?_, by decide, rfl, rfl⟩
    · rw [filter_map_of_pred_inv _ _ _
        (fun x => selPred_after_set_until st _ BLOCKS BLOCKS user.account
          user.account T T u x), hone2]
      simp
    · exact until_eq_of_mem_set_until _ _ u _ (fun x => rfl)

/-- An empty store for witnesses. -/
def wEmpty : Store := ⟨[], [], [], [], []⟩

/-- C1 witness: blocking account 7 twice from an empty store. -/
theorem c1_create_idempotent_witness :
    wUser.api_enabled = true ∧
      (wEmpty.rels.filter
        (selPred wEmpty BLOCKS wUser.account (some 7) none)).length ≤ 1 ∧
      wEmpty.rels.any (followsPred wEmpty wUser.account (some 7) none)
        = false ∧
      cacheGet wEmpty.cache
        (wUser.username ++ ":" ++ "create_block" ++ ":rate-limit") = none ∧
      (((create_relationship
          (create_relationship wEmpty wUser BLOCKS (some 7) none (some 50) 10
            (.ok ⟨7, none⟩)).store
          wUser BLOCKS (some 7) none (some 50) 11 (.err .other)).store.rels.filter
        (selPred wEmpty BLOCKS wUser.account (some 7) none)).length = 1 ∧
        (∀ x ∈ (create_relationship
            (create_relationship wEmpty wUser BLOCKS (some 7) none (some 50) 10
              (.ok ⟨7, none⟩)).store
            wUser BLOCKS (some 7) none (some 50) 11 (.err .other)).store.rels,
          selPred wEmpty BLOCKS wUser.account (some 7) none x = true →
            x.«until» = some 50) ∧
        (create_relationship wEmpty wUser BLOCKS (some 7) none (some 50) 10
            (.ok ⟨7, none⟩)).apiCalls +
          (create_relationship
            (create_relationship wEmpty wUser BLOCKS (some 7) none (some 50) 10
              (.ok ⟨7, none⟩)).store
            wUser BLOCKS (some 7) none (some 50) 11 (.err .other)).apiCalls
          ≤ 1 ∧
        (create_relationship
            (create_relationship wEmpty wUser BLOCKS (some 7) none (some 50) 10
              (.ok ⟨7, none⟩)).store
            wUser BLOCKS (some 7) none (some 50) 11 (.err .other)).apiCalls
          = 0 ∧
        (create_relationship
            (create_relationship wEmpty wUser BLOCKS (some 7) none (some 50) 10
              (.ok ⟨7, none⟩)).store
            wUser BLOCKS (some 7) none (some 50) 11 (.err .other)).outcome =
          Outcome.returned) :=
  ⟨rfl, by decide, by decide, by decide,
    c1_create_idempotent wEmpty wUser 7 none (some 50) 10 11 (.err .other)
      rfl (by decide) (by decide) (by decide)⟩

/-- C2: with prior FOLLOWS edges of S to exactly {A, B, C} (A's last
confirmation older than the run start), a fully completed paged listing
returning {B, C} then {D} (final page carries no next cursor) leaves
S's FOLLOWS edges exactly {B, C, D}: A removed by the finish handler, D
created, B and C with `updated` refreshed to the run start `now`. -/
theorem c2_reconciliation (S A B C D : Nat) (ta now c1 : Nat)
    (tb tc : Nat) (ua ub uc : Option Nat) (accs : List Account)
    (profs : List Nat) (logs : List String) (cch : List (String × Nat))
    (hAB : A ≠ B) (hAC : A ≠ C) (hAD : A ≠ D)
    (hBC : B ≠ C) (hBD : B ≠ D) (hCD : C ≠ D)
    (hta : ta < now) (hc1 : c1 ≠ 0) :
    (twitter_update_friends S now [⟨c1, [B, C]⟩, ⟨0, [D]⟩]
        ⟨[⟨FOLLOWS, S, A, ta, ua⟩, ⟨FOLLOWS, S, B, tb, ub⟩,
          ⟨FOLLOWS, S, C, tc, uc⟩], accs, profs, logs, cch⟩).1.rels =
      [⟨FOLLOWS, S, B, now, ub⟩, ⟨FOLLOWS, S, C, now, uc⟩,
       ⟨FOLLOWS, S, D, now, none⟩] ∧
      (twitter_update_friends S now [⟨c1, [B, C]⟩, ⟨0, [D]⟩]
        ⟨[⟨FOLLOWS, S, A, ta, ua⟩, ⟨FOLLOWS, S, B, tb, ub⟩,
          ⟨FOLLOWS, S, C, tc, uc⟩], accs, profs, logs, cch⟩).2 = true := by
  constructor <;>
    simp [twitter_update_friends, twitter_paged_call_iterator, add_friends,
      add_relationships, addRelToCreate, addRelPred,
      remove_friends_older_than, get_accounts, FOLLOWS, hc1,
      hAB, hAC, hAD, hBC, hBD, hCD, hta, Nat.lt_irrefl]

/-- C2 witness: concrete ids 1..5, times 5 and 10. -/
theorem c2_reconciliation_witness :
    (2 : Nat) ≠ 3 ∧ (2 : Nat) ≠ 4 ∧ (2 : Nat) ≠ 5 ∧ (3 : Nat) ≠ 4 ∧
      (3 : Nat) ≠ 5 ∧ (4 : Nat) ≠ 5 ∧ (5 : Nat) < 10 ∧ (9 : Nat) ≠ 0 ∧
      ((twitter_update_friends 1 10 [⟨9, [3, 4]⟩, ⟨0, [5]⟩]
          ⟨[⟨FOLLOWS, 1, 2, 5, none⟩, ⟨FOLLOWS, 1, 3, 5, none⟩,
            ⟨FOLLOWS, 1, 4, 5, none⟩], [], [], [], []⟩).1.rels =
        [⟨FOLLOWS, 1, 3, 10, none⟩, ⟨FOLLOWS, 1, 4, 10, none⟩,
         ⟨FOLLOWS, 1, 5, 10, none⟩] ∧
        (twitter_update_friends 1 10 [⟨9, [3, 4]⟩, ⟨0, [5]⟩]
          ⟨[⟨FOLLOWS, 1, 2, 5, none⟩, ⟨FOLLOWS, 1, 3, 5, none⟩,
            ⟨FOLLOWS, 1, 4, 5, none⟩], [], [], [], []⟩).2 = true) :=
  ⟨by decide, by decide, by decide, by decide, by decide, by decide,
    by decide, by decide,
    c2_reconciliation 1 2 3 4 5 5 10 9 5 5 none none none [] [] [] []
      (by decide) (by decide) (by decide) (by decide) (by decide)
      (by decide) (by decide) (by decide)⟩

/-- Helper: the finish handlers run exactly when the walk reaches a
response with no next cursor within the page budget. -/
theorem iterator_snd_eq_reachesEnd
    (ahs : List (Store → List Nat → Store)) (fhs : List (Store → Store))
    (pages : List Page) (mp : Nat) (st : Store) :
    (twitter_paged_call_iterator ahs fhs pages mp st).2 =
      reachesEnd pages mp := by
  induction pages generalizing mp st with
  | nil => rfl
  | cons p rest ih =>
    simp only [twitter_paged_call_iterator, reachesEnd]
    by_cases h0 : p.next_cursor = 0
    · simp [h0]
    · by_cases hmp : mp ≠ 0 <;> simp [h0, hmp, ih]

/-- C3: in every paged listing run the finish handlers execute iff a
page response with no next cursor is reached within the page budget
(`reachesEnd`); in particular, a truncated friends listing (budget
exhausted while a next cursor is still present) runs no finish handler,
leaves the stale edge to A in place, and keeps the upserts of the pages
already processed (B, C refreshed, D created). -/
theorem c3_truncation_liveness_gap (S A B C D : Nat) (ta now c1 c2 : Nat)
    (tb tc : Nat) (ua ub uc : Option Nat) (accs : List Account)
    (profs : List Nat) (logs : List String) (cch : List (String × Nat))
    (hAB : A ≠ B) (hAC : A ≠ C) (hAD : A ≠ D)
    (hBC : B ≠ C) (hBD : B ≠ D) (hCD : C ≠ D)
    (hc1 : c1 ≠ 0) (hc2 : c2 ≠ 0) :
    (∀ (ahs : List (Store → List Nat → Store)) (fhs : List (Store → Store))
        (pages : List Page) (mp : Nat) (st : Store),
      (twitter_paged_call_iterator ahs fhs pages mp st).2 =
        reachesEnd pages mp) ∧
      (twitter_paged_call_iterator
          [fun s ids => add_friends s S ids now]
          [fun s => remove_friends_older_than s S now]
          [⟨c1, [B, C]⟩, ⟨c2, [D]⟩] 1
          ⟨[⟨FOLLOWS, S, A, ta, ua⟩, ⟨FOLLOWS, S, B, tb, ub⟩,
            ⟨FOLLOWS, S, C, tc, uc⟩], accs, profs, logs, cch⟩).1.rels =
        [⟨FOLLOWS, S, A, ta, ua⟩, ⟨FOLLOWS, S, B, now, ub⟩,
         ⟨FOLLOWS, S, C, now, uc⟩, ⟨FOLLOWS, S, D, now, none⟩] ∧
      (twitter_paged_call_iterator
          [fun s ids => add_friends s S ids now]
          [fun s => remove_friends_older_than s S now]
          [⟨c1, [B, C]⟩, ⟨c2, [D]⟩] 1
          ⟨[⟨FOLLOWS, S, A, ta, ua⟩, ⟨FOLLOWS, S, B, tb, ub⟩,
            ⟨FOLLOWS, S, C, tc, uc⟩], accs, profs, logs, cch⟩).2 = false := by
  refine ⟨iterator_snd_eq_reachesEnd, ?_, ?_⟩ <;>
    simp [twitter_paged_call_iterator, add_friends,
      add_relationships, addRelToCreate, addRelPred, get_accounts, FOLLOWS,
      hc1, hc2, hAB, hAC, hAD, hBC, hBD, hCD]

/-- C3 witness: concrete truncated run, cursors 9 and 8, budget 1. -/
theorem c3_truncation_liveness_gap_witness :
    (2 : Nat) ≠ 3 ∧ (2 : Nat) ≠ 4 ∧ (2 : Nat) ≠ 5 ∧ (3 : Nat) ≠ 4 ∧
      (3 : Nat) ≠ 5 ∧ (4 : Nat) ≠ 5 ∧ (9 : Nat) ≠ 0 ∧ (8 : Nat) ≠ 0 ∧
      ((∀ (ahs : List (Store → List Nat → Store))
          (fhs : List (Store → Store)) (pages : List Page) (mp : Nat)
          (st : Store),
        (twitter_paged_call_iterator ahs fhs pages mp st).2 =
          reachesEnd pages mp) ∧
        (twitter_paged_call_iterator
            [fun s ids => add_friends s 1 ids 10]
            [fun s => remove_friends_older_than s 1 10]
            [⟨9, [3, 4]⟩, ⟨8, [5]⟩] 1
            ⟨[⟨FOLLOWS, 1, 2, 5, none⟩, ⟨FOLLOWS, 1, 3, 5, none⟩,
              ⟨FOLLOWS, 1, 4, 5, none⟩], [], [], [], []⟩).1.rels =
          [⟨FOLLOWS, 1, 2, 5, none⟩, ⟨FOLLOWS, 1, 3, 10, none⟩,
           ⟨FOLLOWS, 1, 4, 10, none⟩, ⟨FOLLOWS, 1, 5, 10, none⟩] ∧
        (twitter_paged_call_iterator
            [fun s ids => add_friends s 1 ids 10]
            [fun s => remove_friends_older_than s 1 10]
            [⟨9, [3, 4]⟩, ⟨8, [5]⟩] 1
            ⟨[⟨FOLLOWS, 1, 2, 5, none⟩, ⟨FOLLOWS, 1, 3, 5, none⟩,
              ⟨FOLLOWS, 1, 4, 5, none⟩], [], [], [], []⟩).2 = false) :=
  ⟨by decide, by decide, by decide, by decide, by decide, by decide,
    by decide, by decide,
    c3_truncation_liveness_gap 1 2 3 4 5 5 10 9 8 5 5 none none none [] []
      [] [] (by decide) (by decide) (by decide) (by decide) (by decide)
      (by decide) (by decide) (by decide)⟩
